import Mathlib

/-!
# Adaptive 2D max pooling: shape checks and backward orchestration

A shallow embedding of `aten/src/ATen/native/AdaptiveMaxPooling2d.cpp`:

* the structured meta function `adaptive_max_pool2d` (the forward shape check that
  declares the two outputs with `set_output`);
* `adaptive_max_pool2d_backward_out_cpu_template` and its two entry points
  `adaptive_max_pool2d_backward_out_cpu` and `adaptive_max_pool2d_backward_cpu`;
* the window geometry of the specification (`window_bounds`), which lives in
  `ATen/native/AdaptivePooling.h` and is modelled from the specification.

Tensors are CPU, strided and dense (these are the CPU dispatch entries), so a tensor is
its sizes, its element type, the memory format its strides follow and its elements in
storage order.  `TORCH_CHECK` is an `Except` error; mutation of `grad_input` and the
registration of outputs are explicit state passing.
-/

set_option autoImplicit false

namespace AdaptiveMaxPool2d

/-! ## Data model -/

/-- Element types (`c10::ScalarType`); `kLong` is the 64-bit integer type. -/
inductive ScalarType
  | kByte | kChar | kShort | kInt | kLong | kHalf | kFloat | kDouble | kBool | kBFloat16
  deriving DecidableEq, Repr

/-- Memory formats (`c10::MemoryFormat`). -/
inductive MemoryFormat
  | Contiguous | Preserve | ChannelsLast | ChannelsLast3d
  deriving DecidableEq, Repr

/-- The part of `TensorOptions` that the file sets or reads: the element type and the
optional memory format. -/
structure TensorOptions where
  dtype : ScalarType
  memory_format : Option MemoryFormat
  deriving DecidableEq, Repr

/-- A dense CPU tensor: `sizes` are `int64_t` extents, `format` is the memory format its
strides follow, `data` are the elements in storage order. -/
structure Tensor (α : Type) where
  sizes : List Int
  dtype : ScalarType
  format : MemoryFormat
  data : List α
  deriving DecidableEq, Repr

/-- The failures raised by the `TORCH_CHECK`s of the file, one constructor per check, with
the values the message prints. -/
inductive CheckError
  | input_empty_dim (sizes : List Int) (i : Nat)
  | input_rank
  | output_size_len
  | grad_output_empty_dim (sizes : List Int) (i : Nat)
  | grad_output_rank
  | grad_output_dtype (expected got : ScalarType)
  | grad_input_dtype (expected got : ScalarType)
  deriving DecidableEq, Repr

/-- What the file calls but does not define: `Tensor::suggest_memory_format`, the
dispatched `adaptive_max_pool2d_backward_kernel` (a function of `grad_input`,
`grad_output` and `indices` giving the new `grad_input`), and the contents of storage
that `resize_` leaves uninitialised. -/
structure Backend (α : Type) where
  suggest_memory_format : Tensor α → MemoryFormat
  backward_kernel : Tensor α → Tensor α → Tensor α → Tensor α
  uninit : Nat → α

variable {α : Type}

/-- `Tensor::ndimension()`. -/
def Tensor.ndimension (t : Tensor α) : Nat := t.sizes.length

/-- `Tensor::size(i)` for an index inside the rank. -/
def Tensor.size (t : Tensor α) (i : Nat) : Int := t.sizes.getD i 0

/-- `Tensor::options()`: the element type, no memory format chosen. -/
def Tensor.options (t : Tensor α) : TensorOptions := ⟨t.dtype, none⟩

/-- `TensorOptions::dtype(d)`. -/
def TensorOptions.with_dtype (o : TensorOptions) (d : ScalarType) : TensorOptions :=
  ⟨d, o.memory_format⟩

/-- `TensorOptions::memory_format(m)`. -/
def TensorOptions.with_memory_format (o : TensorOptions) (m : MemoryFormat) : TensorOptions :=
  ⟨o.dtype, some m⟩

/-- The loop `for (i = 0; i < ndim; i++) TORCH_CHECK(t.size(i) > 0, ...)`, run over the
sizes from index `i` on; `mk i` is the error of the failing check at index `i`. -/
def check_dims (mk : Nat → CheckError) : List Int → Nat → Except CheckError Unit
  | [], _ => .ok ()
  | s :: rest, i => if 0 < s then check_dims mk rest (i + 1) else .error (mk i)

/-! ## The meta function `adaptive_max_pool2d` -/

/-- One call of `set_output(idx, sizes, options)`. -/
structure OutputDecl where
  idx : Nat
  sizes : List Int
  options : TensorOptions
  deriving DecidableEq, Repr

/-- The outputs declared so far, in call order. -/
structure MetaState where
  outputs : List OutputDecl
  deriving DecidableEq, Repr

/-- Modelled from the spec: `set_output` of the structured-kernel base class, which
records the shape and options of output `idx`. -/
def set_output (st : MetaState) (idx : Nat) (sizes : List Int) (options : TensorOptions) :
    MetaState :=
  ⟨st.outputs ++ [⟨idx, sizes, options⟩]⟩

/-- `TORCH_META_FUNC(adaptive_max_pool2d)`: the result of the checks together with the
state of the declared outputs when the function is left. -/
def adaptive_max_pool2d (env : Backend α) (input : Tensor α) (output_size : List Int)
    (st : MetaState) : Except CheckError Unit × MetaState :=
  match check_dims (CheckError.input_empty_dim input.sizes) input.sizes 0 with
  | .error e => (.error e, st)
  | .ok _ =>
    if ¬ (input.ndimension = 3 ∨ input.ndimension = 4) then (.error .input_rank, st)
    else if ¬ (output_size.length = 2) then (.error .output_size_len, st)
    else
      let dimH : Nat := if input.ndimension = 4 then 2 else 1
      let sizeB : Int := if input.ndimension = 4 then input.size 0 else 1
      let sizeD : Int := input.size (dimH - 1)
      let osizeH : Int := output_size.getD 0 0
      let osizeW : Int := output_size.getD 1 0
      if input.ndimension = 3 then
        let st1 := set_output st 0 [sizeD, osizeH, osizeW] input.options
        let st2 := set_output st1 1 [sizeD, osizeH, osizeW]
          (input.options.with_dtype ScalarType.kLong)
        (.ok (), st2)
      else
        let st1 := set_output st 0 [sizeB, sizeD, osizeH, osizeW]
          (input.options.with_memory_format (env.suggest_memory_format input))
        let st2 := set_output st1 1 [sizeB, sizeD, osizeH, osizeW]
          ((input.options.with_memory_format (env.suggest_memory_format input)).with_dtype
            ScalarType.kLong)
        (.ok (), st2)

/-! ## Backward: `adaptive_max_pool2d_backward_out_cpu_template` and its entry points -/

/-- What a backward call does to `grad_input`, in program order: creation of a tensor by
`at::empty`, `resize_`, `zero_`, and the invocation of the backward kernel with the
arguments it receives. -/
inductive Event (α : Type)
  | alloc (sizes : List Int) (options : TensorOptions)
  | resize (sizes : List Int) (mf : MemoryFormat)
  | zero
  | kernel (grad_input grad_output indices : Tensor α)
  deriving DecidableEq, Repr

/-- The mutable part of a backward call: the tensor behind the reference `grad_input` and
the events so far. -/
structure BackwardState (α : Type) where
  grad_input : Tensor α
  trace : List (Event α)
  deriving DecidableEq, Repr

/-- Number of elements of a tensor of the given sizes. -/
def numel (sizes : List Int) : Nat := sizes.prod.toNat

/-- Modelled from the spec: `Tensor::resize_(sizes, memory_format)` of the tensor library.
The tensor takes the new sizes and strides of the given memory format; elements that
the old storage held are kept in place, the others are uninitialised. -/
def Tensor.resize_ (env : Backend α) (t : Tensor α) (sizes : List Int) (mf : MemoryFormat) :
    Tensor α :=
  ⟨sizes, t.dtype, mf, (List.range (numel sizes)).map (fun i => t.data.getD i (env.uninit i))⟩

/-- Modelled from the spec: `Tensor::zero_()` of the tensor library, which overwrites every
element with zero and leaves shape, element type and strides alone. -/
def Tensor.zero_ [Zero α] (t : Tensor α) : Tensor α :=
  ⟨t.sizes, t.dtype, t.format, t.data.map (fun _ => 0)⟩

/-- Modelled from the spec: `at::empty(sizes, options)` of the tensor library, a new
tensor of uninitialised elements (contiguous unless the options choose a format). -/
def empty (env : Backend α) (sizes : List Int) (options : TensorOptions) : Tensor α :=
  ⟨sizes, options.dtype, options.memory_format.getD MemoryFormat.Contiguous,
    (List.range (numel sizes)).map env.uninit⟩

/-- The statement `grad_input.resize_(sizes, mf)`. -/
def BackwardState.resize_ (env : Backend α) (st : BackwardState α) (sizes : List Int)
    (mf : MemoryFormat) : BackwardState α :=
  ⟨st.grad_input.resize_ env sizes mf, st.trace ++ [Event.resize sizes mf]⟩

/-- The statement `grad_input.zero_()`. -/
def BackwardState.zero_ [Zero α] (st : BackwardState α) : BackwardState α :=
  ⟨st.grad_input.zero_, st.trace ++ [Event.zero]⟩

/-- The statement `adaptive_max_pool2d_backward_kernel(kCPU, grad_input, grad_output,
indices)`: the kernel sees the current `grad_input` and leaves its result in it. -/
def BackwardState.call_kernel (env : Backend α) (st : BackwardState α)
    (grad_output indices : Tensor α) : BackwardState α :=
  ⟨env.backward_kernel st.grad_input grad_output indices,
    st.trace ++ [Event.kernel st.grad_input grad_output indices]⟩

/-- The function `adaptive_max_pool2d_backward_out_cpu_template(grad_input, grad_output,
input, indices)`; `grad_input` is the tensor of the state `st`. -/
def adaptive_max_pool2d_backward_out_cpu_template [Zero α] (env : Backend α)
    (st : BackwardState α) (grad_output input indices : Tensor α) :
    Except CheckError Unit × BackwardState α :=
  let ndim := grad_output.ndimension
  match check_dims (CheckError.grad_output_empty_dim grad_output.sizes) grad_output.sizes 0 with
  | .error e => (.error e, st)
  | .ok _ =>
    if ¬ (ndim = 3 ∨ ndim = 4) then (.error .grad_output_rank, st)
    else if ¬ (input.dtype = grad_output.dtype) then
      (.error (.grad_output_dtype input.dtype grad_output.dtype), st)
    else if ¬ (input.dtype = st.grad_input.dtype) then
      (.error (.grad_input_dtype input.dtype st.grad_input.dtype), st)
    else
      let st1 := st.resize_ env input.sizes (env.suggest_memory_format input)
      let st2 := st1.zero_
      let st3 := st2.call_kernel env grad_output indices
      (.ok (), st3)

/-- The out variant `adaptive_max_pool2d_backward_out_cpu(grad_output, input, indices,
grad_input)`: the caller's `grad_input` is handed to the template; the returned
reference is the `grad_input` of the final state. -/
def adaptive_max_pool2d_backward_out_cpu [Zero α] (env : Backend α)
    (grad_output input indices grad_input : Tensor α) :
    Except CheckError Unit × BackwardState α :=
  adaptive_max_pool2d_backward_out_cpu_template env ⟨grad_input, []⟩ grad_output input indices

/-- The functional variant `adaptive_max_pool2d_backward_cpu(grad_output, input,
indices)`: `grad_input` starts as `at::empty({0}, input.options())`; on success the
tensor is returned, on failure the local tensor is dropped. The second component is the
trace of the call. -/
def adaptive_max_pool2d_backward_cpu [Zero α] (env : Backend α)
    (grad_output input indices : Tensor α) :
    Except CheckError (Tensor α) × List (Event α) :=
  let grad_input := empty env [0] input.options
  let st0 : BackwardState α := ⟨grad_input, [Event.alloc [0] input.options]⟩
  match adaptive_max_pool2d_backward_out_cpu_template env st0 grad_output input indices with
  | (.ok _, st) => (.ok st.grad_input, st.trace)
  | (.error e, st) => (.error e, st.trace)

/-- The state in which the template leaves a call that passes its four checks: the
statements `resize_`, `zero_` and the kernel call, in this order. -/
def accepted_state [Zero α] (env : Backend α) (st : BackwardState α)
    (grad_output input indices : Tensor α) : BackwardState α :=
  ((st.resize_ env input.sizes (env.suggest_memory_format input)).zero_).call_kernel env
    grad_output indices

/-! ## Window geometry -/

/-- Modelled from the spec: the window start of Window Geometry (the helper `start_index`
of `ATen/native/AdaptivePooling.h` is not part of this file),
`start = floor(output_index * input_extent / output_extent)`, the floor being that of the
exact quotient (`Int.fdiv` rounds towards minus infinity). -/
def window_start (output_index output_extent input_extent : Int) : Int :=
  Int.fdiv (output_index * input_extent) output_extent

/-- Modelled from the spec: the window end of Window Geometry (the helper `end_index` of
`ATen/native/AdaptivePooling.h` is not part of this file),
`end = ceil((output_index + 1) * input_extent / output_extent)`, the ceiling of the exact
quotient, computed as minus the floor of the negated quotient. -/
def window_end (output_index output_extent input_extent : Int) : Int :=
  -Int.fdiv (-((output_index + 1) * input_extent)) output_extent

/-- Modelled from the spec: `window_bounds(output_index, output_extent, input_extent)`,
the half-open interval `[start, end)` of input positions of one output index. -/
def window_bounds (output_index output_extent input_extent : Int) : Int × Int :=
  (window_start output_index output_extent input_extent,
   window_end output_index output_extent input_extent)

/-! ## Concrete inputs -/

/-- A backend for concrete evaluation: contiguous tensors, a kernel that adds the first
gradient element at position 0 of `grad_input`, and 7 as uninitialised content. -/
def sample_backend : Backend Int :=
  ⟨fun _ => MemoryFormat.Contiguous,
   fun g go _ => ⟨g.sizes, g.dtype, g.format, g.data.modifyHead (fun x => x + go.data.headD 0)⟩,
   fun _ => 7⟩

/-- A 3D input of shape (1, 2, 2) with elements of type `kFloat`. -/
def sample_input : Tensor Int := ⟨[1, 2, 2], ScalarType.kFloat, MemoryFormat.Contiguous, [1, 2, 3, 4]⟩

/-- A gradient of shape (1, 1, 1) with elements of type `kFloat`. -/
def sample_grad_output : Tensor Int := ⟨[1, 1, 1], ScalarType.kFloat, MemoryFormat.Contiguous, [5]⟩

/-- A gradient of shape (1, 1, 1) with elements of type `kDouble`. -/
def sample_grad_output_double : Tensor Int :=
  ⟨[1, 1, 1], ScalarType.kDouble, MemoryFormat.Contiguous, [5]⟩

/-- Indices of shape (1, 1, 1), the shape of `sample_grad_output`. -/
def sample_indices : Tensor Int := ⟨[1, 1, 1], ScalarType.kLong, MemoryFormat.Contiguous, [3]⟩

/-- Indices of shape (1, 1, 2), which is not the shape of `sample_grad_output`. -/
def sample_indices_wide : Tensor Int :=
  ⟨[1, 1, 2], ScalarType.kLong, MemoryFormat.Contiguous, [3, 0]⟩

/-- A caller-supplied `grad_input` of shape (3) holding nonzero elements. -/
def sample_grad_input : Tensor Int := ⟨[3], ScalarType.kFloat, MemoryFormat.ChannelsLast, [9, 8, 7]⟩

/-- Another caller-supplied `grad_input`, of shape (2, 3). -/
def sample_grad_input_other : Tensor Int :=
  ⟨[2, 3], ScalarType.kFloat, MemoryFormat.Contiguous, [1, 1, 1, 1, 1, 1]⟩

/-! ## Lemmas on the dimension loop -/

theorem check_dims_ok_iff (mk : Nat → CheckError) (l : List Int) (i : Nat) :
    check_dims mk l i = .ok () ↔ ∀ s ∈ l, 0 < s := by
  induction l generalizing i with
  | nil => simp [check_dims]
  | cons a l ih =>
    by_cases ha : 0 < a
    · simp [check_dims, ha, ih]
    · simp [check_dims, ha]

theorem check_dims_error_of_nonpos (mk : Nat → CheckError) (l : List Int) (i : Nat)
    (h : ∃ s ∈ l, s ≤ 0) : ∃ e, check_dims mk l i = .error e := by
  cases hc : check_dims mk l i with
  | error e => exact ⟨e, rfl⟩
  | ok u =>
    obtain ⟨s, hs, hle⟩ := h
    have := (check_dims_ok_iff mk l i).1 hc s hs
    omega

/-! ## Forward shape check -/

/-- C1: the forward shape check fails whenever the input rank is not 3 or 4, or one of
the two spatial (last two) dimensions is zero or negative, or `output_size` does not have
exactly two components; and the failing call leaves the declared outputs as they were,
so no `set_output` has been reached. -/
theorem meta_rejects_bad_shape (env : Backend α) (input : Tensor α) (output_size : List Int)
    (st : MetaState)
    (h : ¬ (input.ndimension = 3 ∨ input.ndimension = 4) ∨
      (∃ s ∈ input.sizes.drop (input.ndimension - 2), s ≤ 0) ∨ output_size.length ≠ 2) :
    ∃ e, adaptive_max_pool2d env input output_size st = (.error e, st) := by
  unfold adaptive_max_pool2d
  cases hc : check_dims (CheckError.input_empty_dim input.sizes) input.sizes 0 with
  | error e => exact ⟨e, rfl⟩
  | ok u =>
    have hpos := (check_dims_ok_iff _ _ _).1 hc
    rcases h with h | h | h
    · exact ⟨.input_rank, by simp [h]⟩
    · obtain ⟨s, hs, hle⟩ := h
      have := hpos s (List.mem_of_mem_drop hs)
      omega
    · by_cases hr : input.ndimension = 3 ∨ input.ndimension = 4
      · exact ⟨.output_size_len, by simp [hr, h]⟩
      · exact ⟨.input_rank, by simp [hr]⟩

/-- Witness of C1: a 3D input whose width is 0. -/
theorem meta_rejects_bad_shape_witness :
    ∃ e, adaptive_max_pool2d sample_backend
      (⟨[2, 3, 0], ScalarType.kFloat, MemoryFormat.Contiguous, []⟩ : Tensor Int) [1, 1] ⟨[]⟩
      = (.error e, ⟨[]⟩) :=
  meta_rejects_bad_shape sample_backend ⟨[2, 3, 0], ScalarType.kFloat, MemoryFormat.Contiguous, []⟩
    [1, 1] ⟨[]⟩ (Or.inr (Or.inl ⟨0, by decide, by decide⟩))

/-- C2 as stated fails: a 3D input with zero channels has positive height and width and a
two-component `output_size`, yet the check on dimension 0 rejects it. -/
theorem meta_rejects_zero_channels :
    ((⟨[0, 3, 3], ScalarType.kFloat, MemoryFormat.Contiguous, []⟩ : Tensor Int).ndimension = 3 ∧
      (∀ s ∈ (⟨[0, 3, 3], ScalarType.kFloat, MemoryFormat.Contiguous, []⟩ : Tensor Int).sizes.drop 1,
        0 < s) ∧ [(1 : Int), 1].length = 2) ∧
    adaptive_max_pool2d sample_backend
      (⟨[0, 3, 3], ScalarType.kFloat, MemoryFormat.Contiguous, []⟩ : Tensor Int) [1, 1] ⟨[]⟩
      = (.error (.input_empty_dim [0, 3, 3] 0), ⟨[]⟩) :=
  ⟨⟨rfl, by decide, rfl⟩, rfl⟩

/-- C2 (amended): for an input of rank 3 or 4 all of whose dimensions (batch and channel
included) are positive, and an `output_size` of exactly two components, the forward shape
check raises no error and declares two outputs. -/
theorem meta_accepts_nonempty (env : Backend α) (input : Tensor α) (output_size : List Int)
    (st : MetaState) (hrank : input.ndimension = 3 ∨ input.ndimension = 4)
    (hpos : ∀ s ∈ input.sizes, 0 < s) (hos : output_size.length = 2) :
    ∃ st', adaptive_max_pool2d env input output_size st = (.ok (), st') ∧
      st'.outputs.length = st.outputs.length + 2 := by
  unfold adaptive_max_pool2d
  rw [(check_dims_ok_iff _ _ _).2 hpos]
  by_cases h3 : input.ndimension = 3
  · exact ⟨_, by simp [h3, hos]; rfl, by simp [set_output]⟩
  · have h4 : input.ndimension = 4 := by tauto
    exact ⟨_, by simp [h4, hos]; rfl, by simp [set_output]⟩

/-- Witness of C2 (amended): a 4D input of shape (2, 3, 4, 4). -/
theorem meta_accepts_nonempty_witness :
    ∃ st', adaptive_max_pool2d sample_backend
      (⟨[2, 3, 4, 4], ScalarType.kFloat, MemoryFormat.Contiguous, []⟩ : Tensor Int) [2, 2] ⟨[]⟩
        = (.ok (), st') ∧ st'.outputs.length = (⟨[]⟩ : MetaState).outputs.length + 2 :=
  meta_accepts_nonempty sample_backend ⟨[2, 3, 4, 4], ScalarType.kFloat, MemoryFormat.Contiguous, []⟩
    [2, 2] ⟨[]⟩ (Or.inr rfl) (by decide) rfl

/-- C3: when the forward shape check accepts, `output_size` is a pair `(oh, ow)` and
exactly two outputs are declared, number 0 and number 1, with one common shape:
`(C, oh, ow)` for a 3D input `(C, H, W)` and `(B, C, oh, ow)` for a 4D input
`(B, C, H, W)`; output 0 has the element type of the input and output 1 is `kLong`. -/
theorem meta_declares_outputs (env : Backend α) (input : Tensor α) (output_size : List Int)
    (st st' : MetaState)
    (h : adaptive_max_pool2d env input output_size st = (.ok (), st')) :
    ∃ oh ow shape o0 o1, output_size = [oh, ow] ∧
      st'.outputs = st.outputs ++ [⟨0, shape, o0⟩, ⟨1, shape, o1⟩] ∧
      o0.dtype = input.dtype ∧ o1.dtype = ScalarType.kLong ∧
      ((∃ C H W, input.sizes = [C, H, W] ∧ shape = [C, oh, ow]) ∨
       (∃ B C H W, input.sizes = [B, C, H, W] ∧ shape = [B, C, oh, ow])) := by
  unfold adaptive_max_pool2d at h
  cases hc : check_dims (CheckError.input_empty_dim input.sizes) input.sizes 0 with
  | error e => rw [hc] at h; simp at h
  | ok u =>
    rw [hc] at h
    by_cases hr : input.ndimension = 3 ∨ input.ndimension = 4
    · by_cases hos : output_size.length = 2
      · obtain ⟨oh, ow, rfl⟩ := List.length_eq_two.1 hos
        rcases hr with h3 | h4
        · obtain ⟨C, H, W, hs⟩ := List.length_eq_three.1 h3
          simp [h3, Tensor.ndimension, Tensor.size, hs, set_output] at h
          refine ⟨oh, ow, [C, oh, ow], input.options, input.options.with_dtype ScalarType.kLong,
            rfl, ?_, rfl, rfl, Or.inl ⟨C, H, W, hs, rfl⟩⟩
          rw [← h]
        · have h4' : input.sizes.length = 4 := h4
          obtain ⟨B, l, hs⟩ := List.exists_cons_of_length_eq_add_one h4'
          have hl : l.length = 3 := by simpa [hs] using h4'
          obtain ⟨C, H, W, rfl⟩ := List.length_eq_three.1 hl
          simp [h4, Tensor.ndimension, Tensor.size, hs, set_output] at h
          refine ⟨oh, ow, [B, C, oh, ow],
            input.options.with_memory_format (env.suggest_memory_format input),
            (input.options.with_memory_format (env.suggest_memory_format input)).with_dtype
              ScalarType.kLong, rfl, ?_, rfl, rfl, Or.inr ⟨B, C, H, W, hs, rfl⟩⟩
          rw [← h]
      · simp [hr, hos] at h
    · simp [hr] at h

/-- Witness of C3: a 4D input of shape (2, 3, 4, 4) pooled to (2, 2). -/
theorem meta_declares_outputs_witness :
    ∃ oh ow shape o0 o1, [(2 : Int), 2] = [oh, ow] ∧
      (⟨[⟨0, [2, 3, 2, 2], ⟨ScalarType.kFloat, some MemoryFormat.Contiguous⟩⟩,
         ⟨1, [2, 3, 2, 2], ⟨ScalarType.kLong, some MemoryFormat.Contiguous⟩⟩]⟩ : MetaState).outputs
        = (⟨[]⟩ : MetaState).outputs ++ [⟨0, shape, o0⟩, ⟨1, shape, o1⟩] ∧
      o0.dtype = (⟨[2, 3, 4, 4], ScalarType.kFloat, MemoryFormat.Contiguous, []⟩ : Tensor Int).dtype ∧
      o1.dtype = ScalarType.kLong ∧
      ((∃ C H W, (⟨[2, 3, 4, 4], ScalarType.kFloat, MemoryFormat.Contiguous, []⟩ : Tensor Int).sizes
          = [C, H, W] ∧ shape = [C, oh, ow]) ∨
       (∃ B C H W, (⟨[2, 3, 4, 4], ScalarType.kFloat, MemoryFormat.Contiguous, []⟩ : Tensor Int).sizes
          = [B, C, H, W] ∧ shape = [B, C, oh, ow])) :=
  meta_declares_outputs sample_backend ⟨[2, 3, 4, 4], ScalarType.kFloat, MemoryFormat.Contiguous, []⟩
    [2, 2] ⟨[]⟩ _ rfl

/-! ## Backward -/

section Backward

variable [Zero α]

/-- The template passes exactly when every dimension of `grad_output` is positive, its
rank is 3 or 4 and the two element-type checks hold; it then runs `resize_`, `zero_` and
the kernel. -/
theorem template_ok_iff (env : Backend α) (st st' : BackwardState α)
    (grad_output input indices : Tensor α) :
    adaptive_max_pool2d_backward_out_cpu_template env st grad_output input indices = (.ok (), st')
      ↔ ((∀ s ∈ grad_output.sizes, 0 < s) ∧
          (grad_output.ndimension = 3 ∨ grad_output.ndimension = 4) ∧
          input.dtype = grad_output.dtype ∧ input.dtype = st.grad_input.dtype) ∧
        st' = accepted_state env st grad_output input indices := by
  unfold adaptive_max_pool2d_backward_out_cpu_template accepted_state
  cases hc : check_dims (CheckError.grad_output_empty_dim grad_output.sizes) grad_output.sizes 0 with
  | error e =>
    have hn : ¬ ∀ s ∈ grad_output.sizes, 0 < s := fun hp => by
      rw [(check_dims_ok_iff _ _ _).2 hp] at hc; cases hc
    constructor
    · intro h; cases h
    · intro h; exact absurd h.1.1 hn
  | ok u =>
    have hp := (check_dims_ok_iff _ _ _).1 hc
    dsimp only
    by_cases hr : grad_output.ndimension = 3 ∨ grad_output.ndimension = 4
    · rw [if_neg (not_not_intro hr)]
      by_cases h1 : input.dtype = grad_output.dtype
      · rw [if_neg (not_not_intro h1)]
        by_cases h2 : input.dtype = st.grad_input.dtype
        · rw [if_neg (not_not_intro h2)]
          constructor
          · intro h; exact ⟨⟨hp, hr, h1, h2⟩, (Prod.mk.inj h).2.symm⟩
          · intro h; rw [h.2]
        · rw [if_pos h2]
          constructor
          · intro h; cases h
          · intro h; exact absurd h.1.2.2.2 h2
      · rw [if_pos h1]
        constructor
        · intro h; cases h
        · intro h; exact absurd h.1.2.2.1 h1
    · rw [if_pos hr]
      constructor
      · intro h; cases h
      · intro h; exact absurd h.1.2.1 hr

theorem check_dims_error_form (mk : Nat → CheckError) (l : List Int) (i : Nat) (e : CheckError)
    (h : check_dims mk l i = .error e) : ∃ j, e = mk j := by
  induction l generalizing i with
  | nil => simp [check_dims] at h
  | cons a l ih =>
    by_cases ha : 0 < a
    · simp only [check_dims, ha, if_true] at h
      exact ih _ h
    · simp only [check_dims, ha, if_false] at h
      cases h
      exact ⟨i, rfl⟩

/-- A call of the template that does not pass returns an error with the state untouched;
the error is the one of the first failing check. -/
theorem template_error (env : Backend α) (st : BackwardState α)
    (grad_output input indices : Tensor α)
    (h : ¬ ((∀ s ∈ grad_output.sizes, 0 < s) ∧
          (grad_output.ndimension = 3 ∨ grad_output.ndimension = 4) ∧
          input.dtype = grad_output.dtype ∧ input.dtype = st.grad_input.dtype)) :
    ∃ e, adaptive_max_pool2d_backward_out_cpu_template env st grad_output input indices
        = (.error e, st) ∧
      ((∀ s ∈ grad_output.sizes, 0 < s) →
        (grad_output.ndimension = 3 ∨ grad_output.ndimension = 4) →
        input.dtype ≠ grad_output.dtype →
        e = .grad_output_dtype input.dtype grad_output.dtype) ∧
      (∀ a b, e = .grad_input_dtype a b →
        input.dtype = grad_output.dtype ∧ input.dtype ≠ st.grad_input.dtype) := by
  unfold adaptive_max_pool2d_backward_out_cpu_template
  cases hc : check_dims (CheckError.grad_output_empty_dim grad_output.sizes) grad_output.sizes 0 with
  | error e =>
    have hn : ¬ ∀ s ∈ grad_output.sizes, 0 < s := fun hp => by
      rw [(check_dims_ok_iff _ _ _).2 hp] at hc; cases hc
    refine ⟨e, rfl, fun hp => absurd hp hn, ?_⟩
    intro a b he
    obtain ⟨j, hj⟩ := check_dims_error_form _ _ _ _ hc
    rw [hj] at he
    cases he
  | ok u =>
    have hp := (check_dims_ok_iff _ _ _).1 hc
    dsimp only
    by_cases hr : grad_output.ndimension = 3 ∨ grad_output.ndimension = 4
    · rw [if_neg (not_not_intro hr)]
      by_cases h1 : input.dtype = grad_output.dtype
      · rw [if_neg (not_not_intro h1)]
        by_cases h2 : input.dtype = st.grad_input.dtype
        · exact absurd ⟨hp, hr, h1, h2⟩ h
        · rw [if_pos h2]
          exact ⟨_, rfl, fun _ _ hne => absurd h1 hne, fun _ _ _ => ⟨h1, h2⟩⟩
      · rw [if_pos h1]
        exact ⟨_, rfl, fun _ _ _ => rfl, fun a b he => by cases he⟩
    · rw [if_pos hr]
      exact ⟨_, rfl, fun _ hr' => absurd hr' hr, fun a b he => by cases he⟩

/-- After `resize_` and `zero_` the tensor is determined by the sizes, the memory format
and its element type: all of its `numel` elements are zero. -/
theorem zero_resize (env : Backend α) (t : Tensor α) (sizes : List Int) (mf : MemoryFormat) :
    (t.resize_ env sizes mf).zero_ = ⟨sizes, t.dtype, mf, List.replicate (numel sizes) 0⟩ := by
  unfold Tensor.resize_ Tensor.zero_
  congr 1
  rw [List.map_map]
  exact (List.map_const' _ _).trans (by rw [List.length_range]; rfl)

/-- The trace of an accepted call: `resize_`, `zero_`, then one kernel call that receives
the resized and zeroed `grad_input`. -/
theorem accepted_state_trace (env : Backend α) (st : BackwardState α)
    (grad_output input indices : Tensor α) :
    (accepted_state env st grad_output input indices).trace
      = st.trace ++ [Event.resize input.sizes (env.suggest_memory_format input), Event.zero,
          Event.kernel ((st.grad_input.resize_ env input.sizes
            (env.suggest_memory_format input)).zero_) grad_output indices] := by
  simp [accepted_state, BackwardState.call_kernel, BackwardState.zero_, BackwardState.resize_]

/-- C4 as stated fails for the functional variant: with a `kDouble` gradient for a
`kFloat` input the call fails with the dtype error, but `grad_input` has been created by
`at::empty({0}, input.options())` before the template reports the error. -/
theorem backward_cpu_creates_grad_input_before_check :
    sample_grad_output_double.dtype ≠ sample_input.dtype ∧
    adaptive_max_pool2d_backward_cpu sample_backend sample_grad_output_double sample_input
        sample_indices
      = (.error (.grad_output_dtype ScalarType.kFloat ScalarType.kDouble),
         [Event.alloc [0] ⟨ScalarType.kFloat, none⟩]) ∧
    (adaptive_max_pool2d_backward_cpu sample_backend sample_grad_output_double sample_input
        sample_indices).2 ≠ [] :=
  ⟨by decide, rfl, by decide⟩

/-- C4 (amended): when the element type of `grad_output` differs from the input's, both
variants fail and produce no output. The out variant leaves the caller's `grad_input`
untouched and has done nothing (no `resize_`, no `zero_`, no kernel call); the functional
variant returns no tensor and has done nothing but create its 0-element placeholder with
`at::empty`. When `grad_output` has rank 3 or 4 and positive dimensions, the error is the
dtype-mismatch error for `grad_output`. -/
theorem backward_dtype_mismatch_fails (env : Backend α)
    (grad_output input indices grad_input : Tensor α) (h : grad_output.dtype ≠ input.dtype) :
    (∃ e, adaptive_max_pool2d_backward_out_cpu env grad_output input indices grad_input
          = (.error e, ⟨grad_input, []⟩) ∧
        ((∀ s ∈ grad_output.sizes, 0 < s) →
          (grad_output.ndimension = 3 ∨ grad_output.ndimension = 4) →
          e = .grad_output_dtype input.dtype grad_output.dtype)) ∧
    (∃ e, adaptive_max_pool2d_backward_cpu env grad_output input indices
          = (.error e, [Event.alloc [0] input.options]) ∧
        ((∀ s ∈ grad_output.sizes, 0 < s) →
          (grad_output.ndimension = 3 ∨ grad_output.ndimension = 4) →
          e = .grad_output_dtype input.dtype grad_output.dtype)) := by
  have hne : input.dtype ≠ grad_output.dtype := fun hh => h hh.symm
  constructor
  · obtain ⟨e, he, hwell, _⟩ := template_error env ⟨grad_input, []⟩ grad_output input indices
      (fun hh => hne hh.2.2.1)
    exact ⟨e, he, fun hp hr => hwell hp hr hne⟩
  · obtain ⟨e, he, hwell, _⟩ := template_error env
      ⟨empty env [0] input.options, [Event.alloc [0] input.options]⟩ grad_output input indices
      (fun hh => hne hh.2.2.1)
    refine ⟨e, ?_, fun hp hr => hwell hp hr hne⟩
    unfold adaptive_max_pool2d_backward_cpu
    simp only [he]

/-- Witness of C4 (amended): a `kDouble` gradient for a `kFloat` input. -/
theorem backward_dtype_mismatch_fails_witness :
    (∃ e, adaptive_max_pool2d_backward_out_cpu sample_backend sample_grad_output_double
          sample_input sample_indices sample_grad_input
          = (.error e, ⟨sample_grad_input, []⟩) ∧
        ((∀ s ∈ sample_grad_output_double.sizes, 0 < s) →
          (sample_grad_output_double.ndimension = 3 ∨ sample_grad_output_double.ndimension = 4) →
          e = .grad_output_dtype sample_input.dtype sample_grad_output_double.dtype)) ∧
    (∃ e, adaptive_max_pool2d_backward_cpu sample_backend sample_grad_output_double
          sample_input sample_indices
          = (.error e, [Event.alloc [0] sample_input.options]) ∧
        ((∀ s ∈ sample_grad_output_double.sizes, 0 < s) →
          (sample_grad_output_double.ndimension = 3 ∨ sample_grad_output_double.ndimension = 4) →
          e = .grad_output_dtype sample_input.dtype sample_grad_output_double.dtype)) :=
  backward_dtype_mismatch_fails sample_backend sample_grad_output_double sample_input
    sample_indices sample_grad_input (by decide)

/-- C5: in every backward call that passes validation the kernel is invoked once, after
`resize_` and `zero_`, and the `grad_input` it receives has exactly the sizes of the
original input and `numel` elements, all zero, whatever `grad_input` was before. -/
theorem backward_kernel_sees_zeroed_grad_input (env : Backend α) (st st' : BackwardState α)
    (grad_output input indices : Tensor α)
    (h : adaptive_max_pool2d_backward_out_cpu_template env st grad_output input indices
      = (.ok (), st')) :
    ∃ g, st'.trace = st.trace ++ [Event.resize input.sizes (env.suggest_memory_format input),
        Event.zero, Event.kernel g grad_output indices] ∧
      g.sizes = input.sizes ∧ g.data.length = numel input.sizes ∧ ∀ x ∈ g.data, x = 0 := by
  obtain ⟨_, rfl⟩ := (template_ok_iff env st st' grad_output input indices).1 h
  refine ⟨(st.grad_input.resize_ env input.sizes (env.suggest_memory_format input)).zero_,
    ?_, ?_, ?_, ?_⟩
  · exact accepted_state_trace env st grad_output input indices
  · rw [zero_resize]
  · rw [zero_resize]; simp
  · rw [zero_resize]; intro x hx; exact List.eq_of_mem_replicate hx

/-- Witness of C5: the out variant called with a `grad_input` of shape (3) holding
9, 8, 7. -/
theorem backward_kernel_sees_zeroed_grad_input_witness :
    ∃ g, (adaptive_max_pool2d_backward_out_cpu sample_backend sample_grad_output sample_input
          sample_indices sample_grad_input).2.trace
        = (⟨sample_grad_input, []⟩ : BackwardState Int).trace ++
          [Event.resize sample_input.sizes (sample_backend.suggest_memory_format sample_input),
           Event.zero, Event.kernel g sample_grad_output sample_indices] ∧
      g.sizes = sample_input.sizes ∧ g.data.length = numel sample_input.sizes ∧
      ∀ x ∈ g.data, x = 0 :=
  backward_kernel_sees_zeroed_grad_input sample_backend ⟨sample_grad_input, []⟩ _
    sample_grad_output sample_input sample_indices rfl

/-- The `grad_input` of an accepted call: the kernel applied to the zero tensor of the
input's sizes, suggested memory format and element type. -/
theorem accepted_grad_input (env : Backend α) (st : BackwardState α)
    (grad_output input indices : Tensor α) (hd : input.dtype = st.grad_input.dtype) :
    (accepted_state env st grad_output input indices).grad_input
      = env.backward_kernel
          ⟨input.sizes, input.dtype, env.suggest_memory_format input,
            List.replicate (numel input.sizes) 0⟩ grad_output indices := by
  unfold accepted_state BackwardState.call_kernel BackwardState.zero_ BackwardState.resize_
  simp only [zero_resize, hd]

/-- C6: two successful calls of the out variant with the same `grad_output`, `input` and
`indices` give the same `grad_input`, whatever the two buffers held before, and the
functional variant returns that same tensor (the kernel being a function of its
arguments, and `grad_input` not aliasing the other arguments). -/
theorem backward_determines_grad_input (env : Backend α)
    (grad_output input indices grad_input1 grad_input2 : Tensor α) (st1 st2 : BackwardState α)
    (h1 : adaptive_max_pool2d_backward_out_cpu env grad_output input indices grad_input1
      = (.ok (), st1))
    (h2 : adaptive_max_pool2d_backward_out_cpu env grad_output input indices grad_input2
      = (.ok (), st2)) :
    st1.grad_input = st2.grad_input ∧
    (adaptive_max_pool2d_backward_cpu env grad_output input indices).1 = .ok st1.grad_input := by
  obtain ⟨⟨hp, hr, hd, hd1⟩, rfl⟩ := (template_ok_iff env _ st1 grad_output input indices).1 h1
  obtain ⟨⟨_, _, _, hd2⟩, rfl⟩ := (template_ok_iff env _ st2 grad_output input indices).1 h2
  have h3 := (template_ok_iff env
    ⟨empty env [0] input.options, [Event.alloc [0] input.options]⟩ _ grad_output input indices).2
    ⟨⟨hp, hr, hd, rfl⟩, rfl⟩
  refine ⟨?_, ?_⟩
  · rw [accepted_grad_input env ⟨grad_input1, []⟩ grad_output input indices hd1,
      accepted_grad_input env ⟨grad_input2, []⟩ grad_output input indices hd2]
  · unfold adaptive_max_pool2d_backward_cpu
    simp only [h3]
    rw [accepted_grad_input env ⟨grad_input1, []⟩ grad_output input indices hd1,
      accepted_grad_input env ⟨empty env [0] input.options, [Event.alloc [0] input.options]⟩
        grad_output input indices rfl]

/-- Witness of C6: buffers of shape (3) and (2, 3) with different contents. -/
theorem backward_determines_grad_input_witness :
    (adaptive_max_pool2d_backward_out_cpu sample_backend sample_grad_output sample_input
        sample_indices sample_grad_input).2.grad_input
      = (adaptive_max_pool2d_backward_out_cpu sample_backend sample_grad_output sample_input
        sample_indices sample_grad_input_other).2.grad_input ∧
    (adaptive_max_pool2d_backward_cpu sample_backend sample_grad_output sample_input
        sample_indices).1
      = .ok (adaptive_max_pool2d_backward_out_cpu sample_backend sample_grad_output sample_input
        sample_indices sample_grad_input).2.grad_input :=
  backward_determines_grad_input sample_backend sample_grad_output sample_input sample_indices
    sample_grad_input sample_grad_input_other _ _ rfl rfl

/-- C7 as stated fails: indices of shape (1, 1, 2) with a gradient of shape (1, 1, 1) are
not rejected; the call succeeds and the kernel is invoked with them. -/
theorem backward_accepts_mismatched_indices :
    sample_indices_wide.sizes ≠ sample_grad_output.sizes ∧
    adaptive_max_pool2d_backward_out_cpu sample_backend sample_grad_output sample_input
        sample_indices_wide sample_grad_input
      = (.ok (),
         ⟨⟨[1, 2, 2], ScalarType.kFloat, MemoryFormat.Contiguous, [5, 0, 0, 0]⟩,
          [Event.resize [1, 2, 2] MemoryFormat.Contiguous, Event.zero,
           Event.kernel ⟨[1, 2, 2], ScalarType.kFloat, MemoryFormat.Contiguous, [0, 0, 0, 0]⟩
             sample_grad_output sample_indices_wide]⟩) :=
  ⟨by decide, rfl⟩

/-- C7 (amended): the backward checks do not look at `indices`. A call whose
`grad_output` has rank 3 or 4 and positive dimensions and whose `input`, `grad_output`
and `grad_input` element types agree is accepted and reaches the backward kernel with the
given `indices`, whatever their shape; equal shapes of `indices` and `grad_output` are
left to the caller. -/
theorem backward_ignores_indices_shape (env : Backend α)
    (grad_output input indices grad_input : Tensor α)
    (hpos : ∀ s ∈ grad_output.sizes, 0 < s)
    (hrank : grad_output.ndimension = 3 ∨ grad_output.ndimension = 4)
    (hd : input.dtype = grad_output.dtype) (hg : input.dtype = grad_input.dtype) :
    ∃ st' g, adaptive_max_pool2d_backward_out_cpu env grad_output input indices grad_input
        = (.ok (), st') ∧ Event.kernel g grad_output indices ∈ st'.trace := by
  have h := (template_ok_iff env ⟨grad_input, []⟩ _ grad_output input indices).2
    ⟨⟨hpos, hrank, hd, hg⟩, rfl⟩
  refine ⟨_, (grad_input.resize_ env input.sizes (env.suggest_memory_format input)).zero_, h, ?_⟩
  rw [accepted_state_trace]
  simp

/-- Witness of C7 (amended): indices of shape (1, 1, 2) with a gradient of shape
(1, 1, 1). -/
theorem backward_ignores_indices_shape_witness :
    ∃ st' g, adaptive_max_pool2d_backward_out_cpu sample_backend sample_grad_output sample_input
        sample_indices_wide sample_grad_input = (.ok (), st') ∧
      Event.kernel g sample_grad_output sample_indices_wide ∈ st'.trace :=
  backward_ignores_indices_shape sample_backend sample_grad_output sample_input
    sample_indices_wide sample_grad_input (by decide) (Or.inl rfl) rfl rfl

/-- C10: the functional backward fails if and only if some dimension of `grad_output` is
zero or negative, or its rank is not 3 or 4, or the input's element type differs from
`grad_output`'s. The failure is never the `grad_input` element-type check, and acceptance
is the same for any other input of the same element type and any other indices. -/
theorem backward_cpu_fails_iff (env : Backend α) (grad_output input indices : Tensor α) :
    ((∃ e, (adaptive_max_pool2d_backward_cpu env grad_output input indices).1 = .error e) ↔
      ((∃ s ∈ grad_output.sizes, s ≤ 0) ∨
        ¬ (grad_output.ndimension = 3 ∨ grad_output.ndimension = 4) ∨
        input.dtype ≠ grad_output.dtype)) ∧
    (∀ a b, (adaptive_max_pool2d_backward_cpu env grad_output input indices).1
      ≠ .error (.grad_input_dtype a b)) ∧
    (∀ input' indices' : Tensor α, input'.dtype = input.dtype →
      ((∃ e, (adaptive_max_pool2d_backward_cpu env grad_output input' indices').1 = .error e) ↔
        (∃ e, (adaptive_max_pool2d_backward_cpu env grad_output input indices).1 = .error e))) := by
  have key : ∀ (inp idx : Tensor α),
      ((∃ e, (adaptive_max_pool2d_backward_cpu env grad_output inp idx).1 = .error e) ↔
        ((∃ s ∈ grad_output.sizes, s ≤ 0) ∨
          ¬ (grad_output.ndimension = 3 ∨ grad_output.ndimension = 4) ∨
          inp.dtype ≠ grad_output.dtype)) ∧
      (∀ a b, (adaptive_max_pool2d_backward_cpu env grad_output inp idx).1
        ≠ .error (.grad_input_dtype a b)) := by
    intro inp idx
    by_cases hc : (∀ s ∈ grad_output.sizes, 0 < s) ∧
        (grad_output.ndimension = 3 ∨ grad_output.ndimension = 4) ∧
        inp.dtype = grad_output.dtype ∧
        inp.dtype = (⟨empty env [0] inp.options, [Event.alloc [0] inp.options]⟩ :
          BackwardState α).grad_input.dtype
    · have h := (template_ok_iff env
        ⟨empty env [0] inp.options, [Event.alloc [0] inp.options]⟩ _ grad_output inp idx).2
        ⟨hc, rfl⟩
      have hres : (adaptive_max_pool2d_backward_cpu env grad_output inp idx).1
          = .ok (accepted_state env ⟨empty env [0] inp.options, [Event.alloc [0] inp.options]⟩
              grad_output inp idx).grad_input := by
        unfold adaptive_max_pool2d_backward_cpu
        simp only [h]
      rw [hres]
      refine ⟨⟨?_, ?_⟩, fun a b hh => by cases hh⟩
      · rintro ⟨e, he⟩
        cases he
      rintro (⟨s, hs, hle⟩ | hr | hd)
      · have := hc.1 s hs; omega
      · exact absurd hc.2.1 hr
      · exact absurd hc.2.2.1 hd
    · obtain ⟨e, he, _, hgi⟩ := template_error env
        ⟨empty env [0] inp.options, [Event.alloc [0] inp.options]⟩ grad_output inp idx hc
      have hres : (adaptive_max_pool2d_backward_cpu env grad_output inp idx).1 = .error e := by
        unfold adaptive_max_pool2d_backward_cpu
        simp only [he]
      rw [hres]
      refine ⟨⟨fun _ => ?_, fun _ => ⟨e, rfl⟩⟩, ?_⟩
      · by_contra hcon
        push_neg at hcon
        exact hc ⟨fun s hs => hcon.1 s hs, hcon.2.1, hcon.2.2, rfl⟩
      · intro a b hh
        cases hh
        exact (hgi a b rfl).2 rfl
  refine ⟨(key input indices).1, (key input indices).2, ?_⟩
  intro input' indices' hdt
  rw [(key input' indices').1, (key input indices).1, hdt]

end Backward

/-! ## Window geometry -/

/-- For a positive output extent `window_start` is the floor of the exact quotient. -/
theorem window_start_eq_floor (oi oe ie : Int) (h : 0 < oe) :
    window_start oi oe ie = ⌊((oi * ie : Int) : ℚ) / (oe : ℚ)⌋ := by
  unfold window_start
  rw [Int.fdiv_eq_ediv _ h.le]
  obtain ⟨n, rfl⟩ := Int.eq_ofNat_of_zero_le h.le
  exact (Rat.floor_intCast_div_natCast _ n).symm

/-- For a positive output extent `window_end` is the ceiling of the exact quotient. -/
theorem window_end_eq_ceil (oi oe ie : Int) (h : 0 < oe) :
    window_end oi oe ie = ⌈(((oi + 1) * ie : Int) : ℚ) / (oe : ℚ)⌉ := by
  unfold window_end
  rw [Int.fdiv_eq_ediv _ h.le]
  obtain ⟨n, rfl⟩ := Int.eq_ofNat_of_zero_le h.le
  have hcast : ((n : Int) : ℚ) = (n : ℚ) := Int.cast_natCast n
  rw [← Rat.floor_intCast_div_natCast, hcast, Int.cast_neg, neg_div, Int.floor_neg, neg_neg]

theorem le_window_start (oi oe ie z : Int) (h : 0 < oe) :
    z ≤ window_start oi oe ie ↔ z * oe ≤ oi * ie := by
  unfold window_start
  rw [Int.fdiv_eq_ediv _ h.le]
  exact Int.le_ediv_iff_mul_le h

theorem window_start_lt (oi oe ie z : Int) (h : 0 < oe) :
    window_start oi oe ie < z ↔ oi * ie < z * oe := by
  unfold window_start
  rw [Int.fdiv_eq_ediv _ h.le]
  exact Int.ediv_lt_iff_lt_mul h

theorem window_end_le (oi oe ie z : Int) (h : 0 < oe) :
    window_end oi oe ie ≤ z ↔ (oi + 1) * ie ≤ z * oe := by
  unfold window_end
  rw [Int.fdiv_eq_ediv _ h.le]
  constructor
  · intro hz
    have : -z ≤ -((oi + 1) * ie) / oe := by omega
    have := (Int.le_ediv_iff_mul_le h).1 this
    linarith
  · intro hz
    have : -z ≤ -((oi + 1) * ie) / oe := (Int.le_ediv_iff_mul_le h).2 (by linarith)
    omega

theorem lt_window_end (oi oe ie z : Int) (h : 0 < oe) :
    z < window_end oi oe ie ↔ z * oe < (oi + 1) * ie := by
  have := window_end_le oi oe ie z h
  constructor
  · intro hz
    by_contra hcon
    exact absurd (this.2 (not_lt.1 hcon)) (not_le.2 hz)
  · intro hz
    by_contra hcon
    exact absurd (this.1 (not_lt.1 hcon)) (not_le.2 hz)

/-- Both ends of a window lie inside the input. -/
theorem window_bounds_bounds_aux (oi oe ie : Int) (hie : 0 < ie) (hoe : 0 < oe)
    (h0 : 0 ≤ oi) (h1 : oi < oe) :
    0 ≤ window_start oi oe ie ∧ window_end oi oe ie ≤ ie := by
  constructor
  · rw [le_window_start _ _ _ _ hoe]
    nlinarith
  · rw [window_end_le _ _ _ _ hoe]
    nlinarith

/-- C8: for positive input and output extents and `0 <= output_index < output_extent`,
the window satisfies `0 <= start < end <= input_extent`: it is non-empty and lies inside
the input, whether or not the output extent exceeds the input extent. -/
theorem window_bounds_inside (output_index output_extent input_extent : Int)
    (hie : 0 < input_extent) (hoe : 0 < output_extent)
    (h0 : 0 ≤ output_index) (h1 : output_index < output_extent) :
    0 ≤ (window_bounds output_index output_extent input_extent).1 ∧
    (window_bounds output_index output_extent input_extent).1
      < (window_bounds output_index output_extent input_extent).2 ∧
    (window_bounds output_index output_extent input_extent).2 ≤ input_extent := by
  unfold window_bounds
  refine ⟨?_, ?_, ?_⟩
  · rw [le_window_start _ _ _ _ hoe]
    nlinarith
  · rw [lt_window_end _ _ _ _ hoe]
    have := (le_window_start output_index output_extent input_extent _ hoe).1 le_rfl
    nlinarith
  · rw [window_end_le _ _ _ _ hoe]
    nlinarith

/-- Witness of C8: output index 3 of 5 over an input of extent 2 (more outputs than
inputs). -/
theorem window_bounds_inside_witness :
    0 ≤ (window_bounds 3 5 2).1 ∧ (window_bounds 3 5 2).1 < (window_bounds 3 5 2).2 ∧
    (window_bounds 3 5 2).2 ≤ 2 :=
  window_bounds_inside 3 5 2 (by decide) (by decide) (by decide) (by decide)

/-- C9: for positive extents the union of the windows of the output indices in
`[0, output_extent)` is exactly `[0, input_extent)` (every input position lies in some
window and no window contains a position outside the input), and consecutive windows
leave no gap: the next window starts no later than the current one ends. -/
theorem window_coverage (output_extent input_extent : Int)
    (hie : 0 < input_extent) (hoe : 0 < output_extent) :
    (∀ p : Int,
      (∃ i : Int, 0 ≤ i ∧ i < output_extent ∧
        (window_bounds i output_extent input_extent).1 ≤ p ∧
        p < (window_bounds i output_extent input_extent).2) ↔ (0 ≤ p ∧ p < input_extent)) ∧
    (∀ i : Int, 0 ≤ i → i + 1 < output_extent →
      (window_bounds (i + 1) output_extent input_extent).1
        ≤ (window_bounds i output_extent input_extent).2) := by
  unfold window_bounds
  refine ⟨fun p => ⟨?_, ?_⟩, ?_⟩
  · rintro ⟨i, hi0, hi1, hs, he⟩
    have hb := window_bounds_bounds_aux i output_extent input_extent hie hoe hi0 hi1
    exact ⟨le_trans hb.1 hs, lt_of_lt_of_le he hb.2⟩
  · rintro ⟨hp0, hp1⟩
    refine ⟨p * output_extent / input_extent, ?_, ?_, ?_, ?_⟩
    · exact Int.ediv_nonneg (mul_nonneg hp0 hoe.le) hie.le
    · rw [Int.ediv_lt_iff_lt_mul hie]
      nlinarith
    · have h1 := Int.ediv_mul_le (p * output_extent) hie.ne'
      have : window_start (p * output_extent / input_extent) output_extent input_extent < p + 1 := by
        rw [window_start_lt _ _ _ _ hoe]
        nlinarith
      exact Int.lt_add_one_iff.1 this
    · rw [lt_window_end _ _ _ _ hoe]
      exact Int.lt_ediv_add_one_mul_self (p * output_extent) hie
  · intro i _ _
    have h1 := (le_window_start (i + 1) output_extent input_extent _ hoe).1 le_rfl
    have : window_start (i + 1) output_extent input_extent - 1
        < window_end i output_extent input_extent := by
      rw [lt_window_end _ _ _ _ hoe]
      nlinarith
    omega

/-- Witness of C9: 3 windows over an input of extent 10. -/
theorem window_coverage_witness :
    (∀ p : Int,
      (∃ i : Int, 0 ≤ i ∧ i < 3 ∧ (window_bounds i 3 10).1 ≤ p ∧ p < (window_bounds i 3 10).2)
        ↔ (0 ≤ p ∧ p < 10)) ∧
    (∀ i : Int, 0 ≤ i → i + 1 < 3 → (window_bounds (i + 1) 3 10).1 ≤ (window_bounds i 3 10).2) :=
  window_coverage 3 10 (by decide) (by decide)

end AdaptiveMaxPool2d
